import Mathlib

/-!
Verification of the tier-gated data-access layer of the DARG Market
Intelligence Platform.

The development shallowly embeds the two core modules and one derived-field
computation:

* `TierControl` — `github_export/utils/tier_control.py`: the static tier
  registry (`TIER_DEFINITIONS`), feature gating (`can_access_feature`,
  `get_feature_limitations`), tier enforcement (`enforce_tier`), the session
  tier setter (`set_user_tier`) and the generic truncation helper
  (`apply_tier_limit`).
* `DataAccess` — `darg_github_export_updated/utils/data_access.py`: the
  resilient data gateway (`get_map_data`, `get_demographic_summary`,
  `get_market_insights`), the coordinate sanitizer (`clean_lat_lon`) and the
  gateway-local tier table (`TIER_ACCESS`).
* `OpportunityMap` — the opportunity-score derivation of
  `darg_github_export_updated/components/opportunity_map.py`.

Modelling conventions: `int(n * p / 100)` on the non-negative integers of
the sizes occurring here equals `Nat` floor division `n * p / 100`; Python
floats carrying market figures are modelled as `ℚ`; a raised exception is
modelled as `Except.error`; the remote RPC collaborator and the sample-data
loader are oracle parameters (each may yield an error, covering raises,
timeouts and structured error responses alike); the Streamlit session
dictionary is an explicit state value threaded through the call. The
gateway functions additionally return the ordered trace of remote
invocations they perform, read off directly from the source's call sites.
-/

namespace TierControl

/-- A value in a tier's feature map: the Python dict stores either a boolean
flag or a descriptive limitation string. -/
inductive FeatVal
  | flag (b : Bool)
  | lim (s : String)
deriving DecidableEq

/-- One entry of `TIER_DEFINITIONS` (tier_control.py lines 39-85).
The `price`, `description` and `icon` fields are carried for fidelity but
play no role in the registry logic. -/
structure TierDef where
  level : Nat
  price : String
  description : String
  data_percentage : Nat
  features : List (String × FeatVal)
  color : String
  icon : String
deriving DecidableEq

/-- The `"Free"` entry of `TIER_DEFINITIONS`. -/
def FreeTier : TierDef :=
  { level := 0
    price := "Free"
    description := "Basic access to explore market intelligence"
    data_percentage := 10
    features :=
      [("market_map", .lim "Limited to 10% of data points"),
       ("export", .flag false),
       ("detailed_analysis", .flag false),
       ("api_access", .flag false),
       ("support", .lim "Community forum")]
    color := "#3498db"
    icon := "🔹" }

/-- The `"Accelerate"` entry of `TIER_DEFINITIONS`. -/
def AccelerateTier : TierDef :=
  { level := 1
    price := "$49/month"
    description := "Enhanced access for growing businesses"
    data_percentage := 50
    features :=
      [("market_map", .lim "Access to 50% of data points"),
       ("export", .flag true),
       ("detailed_analysis", .flag true),
       ("api_access", .flag false),
       ("support", .lim "Email support")]
    color := "#f39c12"
    icon := "🔸" }

/-- The `"Scale"` entry of `TIER_DEFINITIONS`. -/
def ScaleTier : TierDef :=
  { level := 2
    price := "$199/month"
    description := "Full enterprise access with advanced features"
    data_percentage := 100
    features :=
      [("market_map", .lim "Full access to all data points"),
       ("export", .flag true),
       ("detailed_analysis", .flag true),
       ("api_access", .flag true),
       ("support", .lim "Priority support & training")]
    color := "#27ae60"
    icon := "⭐" }

/-- `TIER_DEFINITIONS` as an ordered association list, mirroring the Python
dict (insertion order Free, Accelerate, Scale). -/
def TIER_DEFINITIONS : List (String × TierDef) :=
  [("Free", FreeTier), ("Accelerate", AccelerateTier), ("Scale", ScaleTier)]

/-- The three defined tier names, in registry order. -/
def definedTiers : List String := ["Free", "Accelerate", "Scale"]

/-- `TIER_DEFINITIONS.get(name, TIER_DEFINITIONS["Free"])` — the fail-safe
lookup used throughout tier_control.py. -/
def tierInfo (name : String) : TierDef :=
  (TIER_DEFINITIONS.lookup name).getD FreeTier

/-- `get_tier_percentage` (tier_control.py lines 145-153), parameterised by
the session's user tier instead of reading `st.session_state`. -/
def get_tier_percentage (user_tier : String) : Nat :=
  (tierInfo user_tier).data_percentage

/-- `can_access_feature` (tier_control.py lines 222-247), parameterised by
the session's user tier. -/
def can_access_feature (user_tier feature_name : String) : Bool :=
  match (tierInfo user_tier).features.lookup feature_name with
  | some (.flag b) => b
  | some (.lim _) => true
  | none => false

/-- `get_feature_limitations` (tier_control.py lines 249-274), parameterised
by the session's user tier. -/
def get_feature_limitations (user_tier feature_name : String) : Option String :=
  match (tierInfo user_tier).features.lookup feature_name with
  | some (.flag _) => none
  | some (.lim s) => some s
  | none => none

/-- Outcome of `enforce_tier`: either the upgrade page is rendered and
`st.stop()` halts the caller's page run, or the function returns `True`. -/
inductive EnforceOutcome
  | halted
  | allowed
deriving DecidableEq

/-- `enforce_tier` (tier_control.py lines 276-407), parameterised by the
session's user tier. The denied branch renders the upgrade page, whose first
line indexes `TIER_DEFINITIONS[required_tier]` directly (line 294); a name
absent from the registry would raise `KeyError` there, which the embedding
surfaces as `Except.error`. The branch ends in `st.stop()`, i.e. `halted`. -/
def enforce_tier (required_tier user_tier : String) : Except String EnforceOutcome :=
  let user_level := (tierInfo user_tier).level
  let required_level := (tierInfo required_tier).level
  if user_level < required_level then
    match TIER_DEFINITIONS.lookup required_tier with
    | none => .error "KeyError"
    | some _ => .ok .halted
  else
    .ok .allowed

/-- One entry of the session's `tier_history` list. -/
structure TierChange where
  changed_from : String
  changed_to : String
  timestamp : String
deriving DecidableEq

/-- The tier-related slice of the `st.session_state.user_info` dictionary:
`none` on a field models the key being absent. -/
structure UserInfo where
  tier : Option String := none
  tier_change_time : Option String := none
  tier_history : Option (List TierChange) := none
deriving DecidableEq

/-- The empty dictionary `{}` created when `user_info` is missing. -/
def emptyUserInfo : UserInfo := {}

/-- `set_user_tier` (tier_control.py lines 155-196). The session state is
`none` when `user_info` is not in `st.session_state`; `now` stands for
`datetime.datetime.now().isoformat()`. The Supabase profile update is an
external side effect with no bearing on the session value. -/
def set_user_tier (tier now : String) (s : Option UserInfo) : Bool × Option UserInfo :=
  if (TIER_DEFINITIONS.lookup tier).isNone then
    (false, s)
  else
    let info := s.getD emptyUserInfo
    let previous_tier := info.tier.getD "Free"
    let history := info.tier_history.getD []
    (true, some { info with
                  tier := some tier
                  tier_change_time := some now
                  tier_history := some (history ++ [⟨previous_tier, tier, now⟩]) })

/-- `tierLevel name` — the level the registry resolves for `name`. -/
def tierLevel (name : String) : Nat := (tierInfo name).level

/-- `apply_tier_limit` (tier_control.py lines 436-485) on its list branch;
`if not data` is Python's emptiness test, and the DataFrame and
dict-with-data branches compute the same `max(1, int(len * pct / 100))`
prefix size. -/
def apply_tier_limit {α : Type} (tier_percentage : Nat) (data : List α) : List α :=
  if data.isEmpty then data
  else if 100 ≤ tier_percentage then data
  else data.take (max 1 (data.length * tier_percentage / 100))

end TierControl

namespace DataAccess

/-- A latitude/longitude cell as seen by `pd.to_numeric(_, errors='coerce')`:
either a value that parses to a number (numeric cells and numeric strings
are represented by the number they parse to) or an unparseable value, which
coerces to NaN and is subsequently dropped. -/
inductive CoordField
  | num (q : ℚ)
  | nan
deriving DecidableEq

/-- The parse a coordinate cell coerces to, if any. -/
def parseCoord : CoordField → Option ℚ
  | .num q => some q
  | .nan => none

/-- The numeric value of an already-parseable cell (0 is never consulted:
every use site follows the `dropna` step). -/
def coordVal (c : CoordField) : ℚ := (parseCoord c).getD 0

/-- One geographic market record, the row shape produced by the remote map
functions and by `get_sample_map_data`; `opportunity_score` is `none` when
the key is absent. -/
structure MapRec where
  city : String
  state : String
  latitude : CoordField
  longitude : CoordField
  market_size : ℚ
  growth_rate : ℚ
  population : ℚ
  opportunity_score : Option ℚ := none
deriving DecidableEq

/-- A record survives coordinate sanitation when both coordinates parse and
lie in range. -/
def validRec (r : MapRec) : Bool :=
  match parseCoord r.latitude, parseCoord r.longitude with
  | some la, some lo =>
      decide (-90 ≤ la) && decide (la ≤ 90) && decide (-180 ≤ lo) && decide (lo ≤ 180)
  | _, _ => false

/-- `clean_lat_lon` (data_access.py lines 22-41), mirroring the pandas
pipeline step by step: coerce both columns to numeric, drop NaN rows, then
apply the latitude and longitude range filters. On an empty record list
`pd.DataFrame(data)` has no columns, so the column access
`df[lat_col]` raises `KeyError`, surfaced here as `Except.error`. -/
def clean_lat_lon (data : List MapRec) : Except String (List MapRec) :=
  if data.isEmpty then
    .error "KeyError: latitude"
  else
    let dropped := data.filter fun r =>
      (parseCoord r.latitude).isSome && (parseCoord r.longitude).isSome
    let latOk := dropped.filter fun r =>
      decide (-90 ≤ coordVal r.latitude) && decide (coordVal r.latitude ≤ 90)
    let lonOk := latOk.filter fun r =>
      decide (-180 ≤ coordVal r.longitude) && decide (coordVal r.longitude ≤ 180)
    .ok lonOk

/-- `TIER_ACCESS` (data_access.py lines 75-79) — the gateway-local tier
table, distinct from the registry's `data_percentage` values. -/
def TIER_ACCESS : List (String × Nat) :=
  [("Free", 33), ("Accelerate", 66), ("Scale", 100)]

/-- `get_tier_percentage` (data_access.py lines 81-84):
`TIER_ACCESS.get(tier, 33)`. -/
def get_tier_percentage (user_tier : String) : Nat :=
  (TIER_ACCESS.lookup user_tier).getD 33

/-- The map fallback's tier truncation (data_access.py lines 162-165):
a plain `int(len(data) * tier_percentage / 100)` prefix, with no floor
of one record. -/
def mapTierTruncate {α : Type} (tier_percentage : Nat) (data : List α) : List α :=
  if tier_percentage < 100 then data.take (data.length * tier_percentage / 100)
  else data

/-- The demographic fallback's truncation of the `summary` list
(data_access.py lines 245-248): `max(1, int(len * pct / 100))`. -/
def demoTierTruncate {α : Type} (tier_percentage : Nat) (data : List α) : List α :=
  if tier_percentage < 100 then data.take (max 1 (data.length * tier_percentage / 100))
  else data

/-- The market-insights fallback's truncation of the `by_state` and
`by_segment` lists (data_access.py lines 302-310):
`max(1, int(len * pct / 100))`. -/
def insightsTierTruncate {α : Type} (tier_percentage : Nat) (data : List α) : List α :=
  if tier_percentage < 100 then data.take (max 1 (data.length * tier_percentage / 100))
  else data

/-- The params dict passed to `execute_supabase_function`; `metric_column`
is only supplied by the market-insights call. -/
structure Params where
  tier_percentage : Nat
  state_filter : Option (List String)
  metric_column : Option String := none
deriving DecidableEq

/-- One remote invocation: the SQL function name and its params. -/
structure RpcCall where
  name : String
  params : Params
deriving DecidableEq

/-- The structured result of `get_map_data`: the record list plus an
optional error key. -/
structure FetchResult where
  data : List MapRec
  error : Option String := none
deriving DecidableEq

/-- The success-path processing of `get_map_data` (lines 180-201): the
payload is cleaned; if cleaning raises, the uncleaned payload is returned
with an error key. (The JSON-string re-parse of lines 183-188 is the
identity on structured payloads, the only kind modelled.) -/
def mapProcessPayload (payload : List MapRec) : FetchResult :=
  match clean_lat_lon payload with
  | .ok df => { data := df }
  | .error _ => { data := payload, error := some "Lat/lon cleaning failed" }

/-- The sample-data state filter of `get_map_data` (lines 157-159):
applied only when a non-empty filter list was requested. -/
def applyStateFilter (state_filter : Option (List String)) (data : List MapRec) :
    List MapRec :=
  match state_filter with
  | some states =>
      if states.isEmpty then data else data.filter fun c => states.contains c.state
  | none => data

/-- The fallback branch of `get_map_data` (lines 149-178): load the sample
(`sample` is its loader's outcome; a raise aborts to the default structure
carrying the remote error), filter by state, truncate by tier, then clean;
a raise from cleaning returns the truncated data with an error key. -/
def mapFallback (sample : Except String (List MapRec)) (tier_percentage : Nat)
    (state_filter : Option (List String)) (remote_error : String) : FetchResult :=
  match sample with
  | .error _ => { data := [], error := some remote_error }
  | .ok sdata =>
    let filtered := applyStateFilter state_filter sdata
    let truncated := mapTierTruncate tier_percentage filtered
    match clean_lat_lon truncated with
    | .ok df => { data := df }
    | .error _ => { data := truncated, error := some "Lat/lon cleaning failed" }

/-- `get_map_data` (data_access.py lines 112-201), parameterised by the
remote oracle, the sample loader's outcome and the session tier. Returns
the structured result together with the ordered trace of remote
invocations. -/
def get_map_data (remote : String → Params → Except String (List MapRec))
    (sample : Except String (List MapRec)) (user_tier : String)
    (state_filter : Option (List String)) : FetchResult × List RpcCall :=
  let tier_percentage := get_tier_percentage user_tier
  let p : Params := { tier_percentage := tier_percentage, state_filter := state_filter }
  match remote "get_map_data_with_tooltips" p with
  | .ok payload => (mapProcessPayload payload, [⟨"get_map_data_with_tooltips", p⟩])
  | .error _ =>
    match remote "get_enhanced_map_data" p with
    | .ok payload =>
        (mapProcessPayload payload,
         [⟨"get_map_data_with_tooltips", p⟩, ⟨"get_enhanced_map_data", p⟩])
    | .error e2 =>
        (mapFallback sample tier_percentage state_filter e2,
         [⟨"get_map_data_with_tooltips", p⟩, ⟨"get_enhanced_map_data", p⟩])

/-- One segment of the demographic summary; its inner fields play no role
in the gateway logic. -/
structure DemoSeg where
  label : String
deriving DecidableEq

/-- The structured result of `get_demographic_summary`: the `summary` list
(`none` when the key is absent from the returned dict) plus an optional
error key. -/
structure DemoResult where
  summary : Option (List DemoSeg)
  error : Option String := none
deriving DecidableEq

/-- `get_demographic_summary` (data_access.py lines 203-267), parameterised
like `get_map_data`. A remote payload and the sample dict are both modelled
by their optional `summary` list. On double failure the source returns
`{"summary": [], "error": ...}` carrying the second remote call's error. -/
def get_demographic_summary
    (remote : String → Params → Except String (Option (List DemoSeg)))
    (sample : Except String (Option (List DemoSeg))) (user_tier : String)
    (state_filter : Option (List String)) : DemoResult × List RpcCall :=
  let tier_percentage := get_tier_percentage user_tier
  let p : Params := { tier_percentage := tier_percentage, state_filter := state_filter }
  match remote "get_demographic_summary" p with
  | .ok payload => ({ summary := payload }, [⟨"get_demographic_summary", p⟩])
  | .error _ =>
    match remote "get_demographic_and_psychographic_metrics" p with
    | .ok payload =>
        ({ summary := payload },
         [⟨"get_demographic_summary", p⟩,
          ⟨"get_demographic_and_psychographic_metrics", p⟩])
    | .error e2 =>
      match sample with
      | .ok sdata =>
          ({ summary :=
               match sdata with
               | some l => some (demoTierTruncate tier_percentage l)
               | none => none },
           [⟨"get_demographic_summary", p⟩,
            ⟨"get_demographic_and_psychographic_metrics", p⟩])
      | .error _ =>
          ({ summary := some [], error := some e2 },
           [⟨"get_demographic_summary", p⟩,
            ⟨"get_demographic_and_psychographic_metrics", p⟩])

/-- One `by_state` aggregate row of the market insights. -/
structure StateRec where
  state : String
  avg_value : ℚ
deriving DecidableEq

/-- One `by_segment` aggregate row of the market insights. -/
structure SegmentRec where
  segment_name : String
  avg_value : ℚ
deriving DecidableEq

/-- A market-insights payload or sample dict: the optional `by_state` and
`by_segment` lists (`none` when the key is absent). -/
structure InsightsPayload where
  by_state : Option (List StateRec)
  by_segment : Option (List SegmentRec)
deriving DecidableEq

/-- The structured result of `get_market_insights`. -/
structure InsightsResult where
  by_state : Option (List StateRec)
  by_segment : Option (List SegmentRec)
  error : Option String := none
deriving DecidableEq

/-- `get_market_insights` (data_access.py lines 269-329): a single remote
function, no alternate-name retry; the fallback truncates `by_state` and
`by_segment` independently when present; double failure returns
`{"by_state": [], "by_segment": [], "error": ...}`. -/
def get_market_insights
    (remote : String → Params → Except String InsightsPayload)
    (sample : Except String InsightsPayload) (user_tier : String)
    (state_filter : Option (List String)) (metric_column : String) :
    InsightsResult × List RpcCall :=
  let tier_percentage := get_tier_percentage user_tier
  let p : Params :=
    { tier_percentage := tier_percentage
      state_filter := state_filter
      metric_column := some metric_column }
  match remote "generate_market_insights" p with
  | .ok payload =>
      ({ by_state := payload.by_state, by_segment := payload.by_segment },
       [⟨"generate_market_insights", p⟩])
  | .error e =>
    match sample with
    | .ok s =>
        ({ by_state := s.by_state.map (insightsTierTruncate tier_percentage),
           by_segment := s.by_segment.map (insightsTierTruncate tier_percentage) },
         [⟨"generate_market_insights", p⟩])
    | .error _ =>
        ({ by_state := some [], by_segment := some [], error := some e },
         [⟨"generate_market_insights", p⟩])

/-- A fixture record with valid coordinates, shaped like the first entry of
`get_sample_map_data` (sample_data.py line 21). -/
def sampleNY : MapRec :=
  { city := "New York", state := "NY"
    latitude := .num (40.7128 : ℚ), longitude := .num (-74.0060 : ℚ)
    market_size := 1000, growth_rate := 10, population := 8804190 }

/-- A fixture record whose latitude does not parse as numeric. -/
def sampleBad : MapRec :=
  { city := "Nowhere", state := "ZZ"
    latitude := .nan, longitude := .num 0
    market_size := 1, growth_rate := 1, population := 1 }

end DataAccess

namespace OpportunityMap

/-- Round half to even at integer precision — the rounding of numpy, used
by pandas `Series.round`. -/
def round_half_even (x : ℚ) : ℤ :=
  let f := ⌊x⌋
  let r := x - f
  if r < 1/2 then f
  else if 1/2 < r then f + 1
  else if Even f then f else f + 1

/-- `Series.round(1)` — round half to even at one decimal place. -/
def pandasRound1 (x : ℚ) : ℚ := (round_half_even (10 * x) : ℚ) / 10

/-- Lines 123-125 of opportunity_map.py: when the `opportunity_score`
column is absent (no record carries the key, so `pd.DataFrame` infers no
such column), it is fabricated for every row as
`(growth_rate * market_size / 1000).round(1)`; when the column is present
the record set is left as is. -/
def add_opportunity_score (records : List DataAccess.MapRec) : List DataAccess.MapRec :=
  if records.any (fun r => r.opportunity_score.isSome) then records
  else records.map fun r =>
    { r with opportunity_score := some (pandasRound1 (r.growth_rate * r.market_size / 1000)) }

end OpportunityMap

namespace TierControl

theorem lookup_eq_none_of_not_defined (name : String) (h : name ∉ definedTiers) :
    TIER_DEFINITIONS.lookup name = none := by
  simp only [definedTiers, List.mem_cons, List.not_mem_nil, or_false, not_or] at h
  obtain ⟨h1, h2, h3⟩ := h
  have b1 : (name == "Free") = false := beq_eq_false_iff_ne.mpr h1
  have b2 : (name == "Accelerate") = false := beq_eq_false_iff_ne.mpr h2
  have b3 : (name == "Scale") = false := beq_eq_false_iff_ne.mpr h3
  simp [TIER_DEFINITIONS, List.lookup, b1, b2, b3]

theorem tierInfo_of_not_defined (name : String) (h : name ∉ definedTiers) :
    tierInfo name = FreeTier := by
  simp [tierInfo, lookup_eq_none_of_not_defined name h]

/-- C5: over the three defined tiers, `enforce_tier` halts the caller by
`st.stop()` exactly when the active tier's level is below the required
tier's level, and returns `True` (allows) on or above the diagonal. -/
theorem enforce_tier_halts_below_diagonal (required active : String)
    (hr : required ∈ definedTiers) (ha : active ∈ definedTiers) :
    enforce_tier required active =
      .ok (if tierLevel active < tierLevel required then .halted else .allowed) := by
  simp only [definedTiers, List.mem_cons, List.not_mem_nil, or_false] at hr ha
  rcases hr with rfl | rfl | rfl <;> rcases ha with rfl | rfl | rfl <;> rfl

/-- Concrete instance of C5: requiring `Scale` against an active `Free`
tier halts, while requiring `Free` against an active `Scale` tier allows. -/
theorem enforce_tier_halts_below_diagonal_witness :
    enforce_tier "Scale" "Free" =
      .ok (if tierLevel "Free" < tierLevel "Scale" then .halted else .allowed)
    ∧ enforce_tier "Free" "Scale" =
      .ok (if tierLevel "Scale" < tierLevel "Free" then .halted else .allowed) :=
  ⟨enforce_tier_halts_below_diagonal "Scale" "Free" (by decide) (by decide),
   enforce_tier_halts_below_diagonal "Free" "Scale" (by decide) (by decide)⟩

/-- C6: a tier name outside the registry behaves exactly like `"Free"` for
the data-access-percentage lookup, the feature-allowed check, the
feature-limitation lookup, and tier enforcement (in either argument
position), and `enforce_tier` — the only registry operation whose source
contains a raising lookup — never returns an error for any pair of input
tier names. -/
theorem unknown_tier_behaves_as_free (name : String) (h : name ∉ definedTiers) :
    get_tier_percentage name = get_tier_percentage "Free"
    ∧ (∀ f, can_access_feature name f = can_access_feature "Free" f)
    ∧ (∀ f, get_feature_limitations name f = get_feature_limitations "Free" f)
    ∧ (∀ u, enforce_tier name u = enforce_tier "Free" u)
    ∧ (∀ r, enforce_tier r name = enforce_tier r "Free")
    ∧ (∀ r u e, enforce_tier r u ≠ .error e) := by
  have hfree : tierInfo name = tierInfo "Free" := by
    rw [tierInfo_of_not_defined name h]; rfl
  have hnoerr : ∀ r u e, enforce_tier r u ≠ .error e := by
    intro r u e
    unfold enforce_tier
    cases hl : TIER_DEFINITIONS.lookup r with
    | none =>
      have hr0 : tierInfo r = FreeTier := by simp [tierInfo, hl]
      simp [hr0, FreeTier]
    | some d =>
      by_cases hcmp : (tierInfo u).level < (tierInfo r).level <;> simp [hcmp, hl]
  refine ⟨by simp only [get_tier_percentage, hfree], ?_, ?_, ?_, ?_, hnoerr⟩
  · intro f; simp only [can_access_feature, hfree]
  · intro f; simp only [get_feature_limitations, hfree]
  · intro u
    unfold enforce_tier
    rw [hfree]
    have hfl : (tierInfo "Free").level = 0 := rfl
    simp [hfl]
  · intro r
    unfold enforce_tier
    rw [hfree]

/-- Concrete instance of C6: the unheard-of tier name `"Platinum"` resolves
to the same data percentage as `"Free"`, gates `"export"` identically, and
is enforced identically against an active `"Free"` user. -/
theorem unknown_tier_behaves_as_free_witness :
    get_tier_percentage "Platinum" = get_tier_percentage "Free"
    ∧ can_access_feature "Platinum" "export" = can_access_feature "Free" "export"
    ∧ enforce_tier "Platinum" "Free" = enforce_tier "Free" "Free" :=
  ⟨(unknown_tier_behaves_as_free "Platinum" (by decide)).1,
   (unknown_tier_behaves_as_free "Platinum" (by decide)).2.1 "export",
   (unknown_tier_behaves_as_free "Platinum" (by decide)).2.2.2.1 "Free"⟩

/-- C9: `can_access_feature` returns `true` exactly when the feature name is
present in the resolved tier's feature map with a value other than the
boolean `false`; a `false` flag or an absent key yields `false`. -/
theorem can_access_feature_iff (user_tier feature_name : String) :
    can_access_feature user_tier feature_name = true ↔
      ∃ v, (tierInfo user_tier).features.lookup feature_name = some v
            ∧ v ≠ FeatVal.flag false := by
  unfold can_access_feature
  cases hv : (tierInfo user_tier).features.lookup feature_name with
  | none => simp
  | some v =>
    cases v with
    | flag b => cases b <;> simp
    | lim s => simp

/-- C10: `set_user_tier` validates before mutating — an undefined tier name
returns `False` with the session state (including absent `user_info`)
untouched; a defined tier name returns `True` with the tier recorded, the
change time stamped, and the change appended to the tier history. -/
theorem set_user_tier_validates_before_mutating (tier now : String) (s : Option UserInfo) :
    (tier ∉ definedTiers → set_user_tier tier now s = (false, s))
    ∧ (tier ∈ definedTiers →
        set_user_tier tier now s =
          (true, some { tier := some tier
                        tier_change_time := some now
                        tier_history := some
                          (((s.getD emptyUserInfo).tier_history.getD []) ++
                            [⟨(s.getD emptyUserInfo).tier.getD "Free", tier, now⟩]) })) := by
  constructor
  · intro h
    simp [set_user_tier, lookup_eq_none_of_not_defined tier h]
  · intro h
    simp only [definedTiers, List.mem_cons, List.not_mem_nil, or_false] at h
    rcases h with rfl | rfl | rfl <;>
      simp [set_user_tier, TIER_DEFINITIONS, List.lookup]

/-- Concrete instance of C10: setting the undefined tier `"Platinum"` on an
empty session rejects without touching it; setting `"Accelerate"` on a
session currently at `"Free"` succeeds and appends to the history. -/
theorem set_user_tier_validates_before_mutating_witness :
    set_user_tier "Platinum" "2025-01-01T00:00:00" none = (false, none)
    ∧ set_user_tier "Accelerate" "2025-01-01T00:00:00"
        (some { tier := some "Free" }) =
      (true, some { tier := some "Accelerate"
                    tier_change_time := some "2025-01-01T00:00:00"
                    tier_history := some [⟨"Free", "Accelerate", "2025-01-01T00:00:00"⟩] }) :=
  ⟨(set_user_tier_validates_before_mutating "Platinum" "2025-01-01T00:00:00" none).1
     (by decide),
   (set_user_tier_validates_before_mutating "Accelerate" "2025-01-01T00:00:00"
     (some { tier := some "Free" })).2 (by decide)⟩

end TierControl

namespace DataAccess

theorem trunc_le_length {n P : Nat} (h : P < 100) : n * P / 100 ≤ n := by
  calc n * P / 100 ≤ n * 100 / 100 :=
        Nat.div_le_div_right (Nat.mul_le_mul_left n (Nat.le_of_lt h))
    _ = n := Nat.mul_div_cancel n (by norm_num)

/-- C1 (amended): for every tier percentage `P` and record list: if
`P ≥ 100` every truncation operation is the identity; on an empty list
every truncation returns the empty list; and if `P < 100` on a non-empty
list, the demographic-summary fallback, the market-insights fallback and
the generic `apply_tier_limit` each return the prefix of exactly
`max(1, floor(N*P/100))` records, while the map-data fallback returns the
prefix of exactly `floor(N*P/100)` records — it alone applies no floor of
one record and can return an empty result. -/
theorem tier_truncation_exact_lengths {α : Type} (P : Nat) (l : List α) :
    (100 ≤ P →
      mapTierTruncate P l = l ∧ demoTierTruncate P l = l
      ∧ insightsTierTruncate P l = l ∧ TierControl.apply_tier_limit P l = l)
    ∧ (mapTierTruncate P ([] : List α) = [] ∧ demoTierTruncate P ([] : List α) = []
      ∧ insightsTierTruncate P ([] : List α) = []
      ∧ TierControl.apply_tier_limit P ([] : List α) = [])
    ∧ (P < 100 → l ≠ [] →
        (demoTierTruncate P l).length = max 1 (l.length * P / 100)
        ∧ (insightsTierTruncate P l).length = max 1 (l.length * P / 100)
        ∧ (TierControl.apply_tier_limit P l).length = max 1 (l.length * P / 100)
        ∧ (mapTierTruncate P l).length = l.length * P / 100) := by
  refine ⟨?_, ?_, ?_⟩
  · intro h
    have hnot : ¬ P < 100 := Nat.not_lt.mpr h
    refine ⟨?_, ?_, ?_, ?_⟩ <;>
      simp [mapTierTruncate, demoTierTruncate, insightsTierTruncate,
            TierControl.apply_tier_limit, hnot, h]
  · refine ⟨?_, ?_, ?_, ?_⟩ <;>
      simp [mapTierTruncate, demoTierTruncate, insightsTierTruncate,
            TierControl.apply_tier_limit]
  · intro hP hl
    have hn : 1 ≤ l.length := List.length_pos.mpr hl
    have hk : l.length * P / 100 ≤ l.length := trunc_le_length hP
    have hmax : max 1 (l.length * P / 100) ≤ l.length := max_le hn hk
    have hne : l.isEmpty = false := by simp [List.isEmpty_iff, hl]
    refine ⟨?_, ?_, ?_, ?_⟩
    · rw [demoTierTruncate, if_pos hP, List.length_take]
      exact min_eq_left hmax
    · rw [insightsTierTruncate, if_pos hP, List.length_take]
      exact min_eq_left hmax
    · rw [TierControl.apply_tier_limit]
      rw [hne]
      rw [if_neg (by simp), if_neg (Nat.not_le.mpr hP), List.length_take]
      exact min_eq_left hmax
    · rw [mapTierTruncate, if_pos hP, List.length_take]
      exact min_eq_left hk

/-- C1 counterexample: the map-data fallback truncation at the Free tier's
33 percent on a one-record list returns zero records, not the claimed
`max(1, floor(1*33/100)) = 1`. -/
theorem map_truncation_no_floor_counterexample :
    (mapTierTruncate 33 [(0 : Nat)]).length ≠
      max 1 (([(0 : Nat)] : List Nat).length * 33 / 100) := by
  decide

/-- Concrete instance of C1 (amended): at 50 percent on four records the
demographic truncation keeps `max(1, 2) = 2` records, and at 100 percent
the map truncation is the identity. -/
theorem tier_truncation_exact_lengths_witness :
    (demoTierTruncate 50 [0, 1, 2, 3]).length =
      max 1 (([0, 1, 2, 3] : List Nat).length * 50 / 100)
    ∧ mapTierTruncate 100 [0, 1] = ([0, 1] : List Nat) :=
  ⟨((tier_truncation_exact_lengths 50 ([0, 1, 2, 3] : List Nat)).2.2
      (by decide) (by decide)).1,
   ((tier_truncation_exact_lengths 100 ([0, 1] : List Nat)).1 (by decide)).1⟩

theorem clean_filter_chain (data : List MapRec) :
    (((data.filter fun r =>
        (parseCoord r.latitude).isSome && (parseCoord r.longitude).isSome).filter fun r =>
        decide (-90 ≤ coordVal r.latitude) && decide (coordVal r.latitude ≤ 90)).filter fun r =>
        decide (-180 ≤ coordVal r.longitude) && decide (coordVal r.longitude ≤ 180))
      = data.filter validRec := by
  rw [List.filter_filter, List.filter_filter]
  refine List.filter_congr ?_
  intro r _
  rcases hla : parseCoord r.latitude with _ | la <;>
    rcases hlo : parseCoord r.longitude with _ | lo <;>
      simp [validRec, coordVal, hla, hlo, Bool.and_comm, Bool.and_left_comm, Bool.and_assoc]

theorem clean_lat_lon_ok (data : List MapRec) (h : data ≠ []) :
    clean_lat_lon data = .ok (data.filter validRec) := by
  rw [clean_lat_lon, if_neg (by simp [List.isEmpty_iff, h])]
  exact congrArg Except.ok (clean_filter_chain data)

/-- C7 (amended): on every non-empty record list, the coordinate sanitizer
returns exactly the records whose coordinates parse as numeric and lie in
`[-90, 90] × [-180, 180]`, each preserved with its field values intact and
in the original relative order, the rest dropped without replacement,
defaulting, or any surfaced error; on the empty record list, however, the
sanitizer raises (the empty DataFrame has no coordinate columns) instead of
returning an empty cleaned result, and the gateway's surrounding
`try/except` absorbs that raise. -/
theorem clean_lat_lon_removes_exactly_invalid (data : List MapRec) (h : data ≠ []) :
    clean_lat_lon data = .ok (data.filter validRec) :=
  clean_lat_lon_ok data h

/-- C7 counterexample: on the empty record list the sanitizer errors rather
than returning the empty filtered result. -/
theorem clean_lat_lon_empty_counterexample :
    clean_lat_lon [] ≠ .ok (List.filter validRec []) := by
  simp [clean_lat_lon]

/-- Concrete instance of C7 (amended): a two-record list with one
unparseable latitude is cleaned to exactly its valid record. -/
theorem clean_lat_lon_removes_exactly_invalid_witness :
    clean_lat_lon [sampleNY, sampleBad] = .ok ([sampleNY, sampleBad].filter validRec) :=
  clean_lat_lon_removes_exactly_invalid [sampleNY, sampleBad] (by simp)

end DataAccess

namespace DataAccess

theorem filter_length_sub {α : Type} (p : α → Bool) (l : List α) :
    (l.filter p).length = l.length - (l.filter fun a => !p a).length := by
  induction l with
  | nil => rfl
  | cons a t ih =>
    have hle := List.length_filter_le (fun x => !p x) t
    by_cases h : p a <;> simp [List.filter_cons, h, ih]
    all_goals omega

/-- C3: whenever `get_map_data` falls back to sample data (both remote
calls error), the result is the fallback pipeline applied to the sample:
state filter, then percentage truncation, then coordinate sanitation — so
only records inside the truncated quota are subject to the invalid-row
drop, the surviving records are exactly the valid ones of that prefix, and
the final record count equals the truncated count minus the invalid
records among that prefix (also on the degenerate empty prefix, where the
sanitizer's raise is caught and the empty truncated list is returned). -/
theorem map_fallback_truncates_then_sanitizes
    (remote : String → Params → Except String (List MapRec))
    (sdata : List MapRec) (user_tier : String) (state_filter : Option (List String))
    (e1 e2 : String)
    (h1 : remote "get_map_data_with_tooltips"
            ⟨get_tier_percentage user_tier, state_filter, none⟩ = .error e1)
    (h2 : remote "get_enhanced_map_data"
            ⟨get_tier_percentage user_tier, state_filter, none⟩ = .error e2) :
    get_map_data remote (.ok sdata) user_tier state_filter =
      (mapFallback (.ok sdata) (get_tier_percentage user_tier) state_filter e2,
       [⟨"get_map_data_with_tooltips", ⟨get_tier_percentage user_tier, state_filter, none⟩⟩,
        ⟨"get_enhanced_map_data", ⟨get_tier_percentage user_tier, state_filter, none⟩⟩])
    ∧ (mapTierTruncate (get_tier_percentage user_tier)
          (applyStateFilter state_filter sdata) ≠ [] →
        (mapFallback (.ok sdata) (get_tier_percentage user_tier) state_filter e2).data =
          (mapTierTruncate (get_tier_percentage user_tier)
            (applyStateFilter state_filter sdata)).filter validRec)
    ∧ (mapFallback (.ok sdata) (get_tier_percentage user_tier) state_filter e2).data.length =
        (mapTierTruncate (get_tier_percentage user_tier)
          (applyStateFilter state_filter sdata)).length -
        ((mapTierTruncate (get_tier_percentage user_tier)
          (applyStateFilter state_filter sdata)).filter fun r => !validRec r).length := by
  refine ⟨?_, ?_, ?_⟩
  · simp only [get_map_data, h1, h2]
  · intro htr
    simp only [mapFallback, clean_lat_lon_ok _ htr]
  · by_cases htr : mapTierTruncate (get_tier_percentage user_tier)
        (applyStateFilter state_filter sdata) = []
    · simp [mapFallback, htr, clean_lat_lon]
    · simp only [mapFallback, clean_lat_lon_ok _ htr]
      exact filter_length_sub validRec _

/-- Concrete instance of C3: with every remote call failing, the map
fallback on a two-record sample satisfies the truncate-then-sanitize count
equation. -/
theorem map_fallback_truncates_then_sanitizes_witness :
    (mapFallback (.ok [sampleNY, sampleBad]) (get_tier_percentage "Free") none "down").data.length =
      (mapTierTruncate (get_tier_percentage "Free")
        (applyStateFilter none [sampleNY, sampleBad])).length -
      ((mapTierTruncate (get_tier_percentage "Free")
        (applyStateFilter none [sampleNY, sampleBad])).filter fun r => !validRec r).length :=
  (map_fallback_truncates_then_sanitizes (fun _ _ => .error "down")
    [sampleNY, sampleBad] "Free" none "down" "down" rfl rfl).2.2

/-- C2 (amended): on a remote error of the primary function, BOTH the
map-data fetch and the demographic-summary fetch retry exactly once with a
secondary, alternately-named remote function using identical parameters
before falling back to sample data (and perform no retry on primary
success), while the market-insights fetch issues exactly one remote call
and falls back directly on its first failure. -/
theorem remote_retry_policy
    (rm : String → Params → Except String (List MapRec))
    (rd : String → Params → Except String (Option (List DemoSeg)))
    (ri : String → Params → Except String InsightsPayload)
    (sm : Except String (List MapRec)) (sd : Except String (Option (List DemoSeg)))
    (si : Except String InsightsPayload)
    (user_tier : String) (state_filter : Option (List String)) (metric_column : String) :
    (∀ e, rm "get_map_data_with_tooltips"
        ⟨get_tier_percentage user_tier, state_filter, none⟩ = .error e →
      (get_map_data rm sm user_tier state_filter).2 =
        [⟨"get_map_data_with_tooltips", ⟨get_tier_percentage user_tier, state_filter, none⟩⟩,
         ⟨"get_enhanced_map_data", ⟨get_tier_percentage user_tier, state_filter, none⟩⟩])
    ∧ (∀ v, rm "get_map_data_with_tooltips"
        ⟨get_tier_percentage user_tier, state_filter, none⟩ = .ok v →
      (get_map_data rm sm user_tier state_filter).2 =
        [⟨"get_map_data_with_tooltips", ⟨get_tier_percentage user_tier, state_filter, none⟩⟩])
    ∧ (∀ e, rd "get_demographic_summary"
        ⟨get_tier_percentage user_tier, state_filter, none⟩ = .error e →
      (get_demographic_summary rd sd user_tier state_filter).2 =
        [⟨"get_demographic_summary", ⟨get_tier_percentage user_tier, state_filter, none⟩⟩,
         ⟨"get_demographic_and_psychographic_metrics",
          ⟨get_tier_percentage user_tier, state_filter, none⟩⟩])
    ∧ (∀ v, rd "get_demographic_summary"
        ⟨get_tier_percentage user_tier, state_filter, none⟩ = .ok v →
      (get_demographic_summary rd sd user_tier state_filter).2 =
        [⟨"get_demographic_summary", ⟨get_tier_percentage user_tier, state_filter, none⟩⟩])
    ∧ (get_market_insights ri si user_tier state_filter metric_column).2 =
        [⟨"generate_market_insights",
          ⟨get_tier_percentage user_tier, state_filter, some metric_column⟩⟩] := by
  refine ⟨?_, ?_, ?_, ?_, ?_⟩
  · intro e h
    simp only [get_map_data, h]
    cases rm "get_enhanced_map_data"
        ⟨get_tier_percentage user_tier, state_filter, none⟩ <;> rfl
  · intro v h
    simp only [get_map_data, h]
  · intro e h
    simp only [get_demographic_summary, h]
    cases rd "get_demographic_and_psychographic_metrics"
        ⟨get_tier_percentage user_tier, state_filter, none⟩ with
    | error e2 => cases sd with
      | error es => rfl
      | ok sdata => cases sdata <;> rfl
    | ok v => rfl
  · intro v h
    simp only [get_demographic_summary, h]
  · simp only [get_market_insights]
    cases ri "generate_market_insights"
        ⟨get_tier_percentage user_tier, state_filter, some metric_column⟩ with
    | error e => cases si <;> rfl
    | ok v => rfl

/-- C2 counterexample: with every remote call failing, the
demographic-summary fetch performs a second remote invocation under the
alternate name `get_demographic_and_psychographic_metrics` — it does not
fall back directly after the first failure. -/
theorem demographic_alternate_retry_counterexample :
    ((get_demographic_summary (fun _ _ => .error "down") (.ok none) "Free" none).2).map
        RpcCall.name =
      ["get_demographic_summary", "get_demographic_and_psychographic_metrics"]
    ∧ ((get_demographic_summary (fun _ _ => .error "down") (.ok none) "Free" none).2).length
        ≠ 1 :=
  ⟨rfl, by decide⟩

/-- Concrete instance of C2 (amended): a failing primary map call produces
exactly the two-call trace, and the insights fetch always has a one-call
trace. -/
theorem remote_retry_policy_witness :
    (get_map_data (fun _ _ => .error "x") (.ok []) "Free" none).2 =
      [⟨"get_map_data_with_tooltips", ⟨33, none, none⟩⟩,
       ⟨"get_enhanced_map_data", ⟨33, none, none⟩⟩]
    ∧ (get_market_insights (fun _ _ => .error "x") (.error "y") "Free" none "market_size").2 =
      [⟨"generate_market_insights", ⟨33, none, some "market_size"⟩⟩] :=
  ⟨(remote_retry_policy (fun _ _ => .error "x") (fun _ _ => .error "x")
      (fun _ _ => .error "x") (.ok []) (.ok none) (.error "y") "Free" none
      "market_size").1 "x" rfl,
   (remote_retry_policy (fun _ _ => .error "x") (fun _ _ => .error "x")
      (fun _ _ => .error "x") (.ok []) (.ok none) (.error "y") "Free" none
      "market_size").2.2.2.2⟩

/-- C4: each gateway fetch is a total function into its structured result
type (no exception escapes: every raise of the source is a caught
`Except.error` inside the definition), and on double failure — all remote
calls error and the sample loader raises — the returned structure carries
the empty record list together with the remote error: `get_map_data` and
`get_demographic_summary` return the last remote call's error with `data`
(resp. `summary`) empty, and `get_market_insights` likewise with both
`by_state` and `by_segment` empty. -/
theorem gateway_double_failure_structured
    (rm : String → Params → Except String (List MapRec))
    (rd : String → Params → Except String (Option (List DemoSeg)))
    (ri : String → Params → Except String InsightsPayload)
    (user_tier : String) (state_filter : Option (List String)) (metric_column : String) :
    (∀ e1 e2 es, rm "get_map_data_with_tooltips"
          ⟨get_tier_percentage user_tier, state_filter, none⟩ = .error e1 →
        rm "get_enhanced_map_data"
          ⟨get_tier_percentage user_tier, state_filter, none⟩ = .error e2 →
        (get_map_data rm (.error es) user_tier state_filter).1 =
          { data := [], error := some e2 })
    ∧ (∀ e1 e2 es, rd "get_demographic_summary"
          ⟨get_tier_percentage user_tier, state_filter, none⟩ = .error e1 →
        rd "get_demographic_and_psychographic_metrics"
          ⟨get_tier_percentage user_tier, state_filter, none⟩ = .error e2 →
        (get_demographic_summary rd (.error es) user_tier state_filter).1 =
          { summary := some [], error := some e2 })
    ∧ (∀ e es, ri "generate_market_insights"
          ⟨get_tier_percentage user_tier, state_filter, some metric_column⟩ = .error e →
        (get_market_insights ri (.error es) user_tier state_filter metric_column).1 =
          { by_state := some [], by_segment := some [], error := some e }) := by
  refine ⟨?_, ?_, ?_⟩
  · intro e1 e2 es h1 h2
    simp only [get_map_data, h1, h2]
    rfl
  · intro e1 e2 es h1 h2
    simp only [get_demographic_summary, h1, h2]
  · intro e es h
    simp only [get_market_insights, h]

/-- Concrete instance of C4: with every remote call and every sample
loader failing, all three gateway fetches return their empty structured
error results. -/
theorem gateway_double_failure_structured_witness :
    (get_map_data (fun _ _ => .error "down") (.error "no sample") "Free" none).1 =
      { data := [], error := some "down" }
    ∧ (get_demographic_summary (fun _ _ => .error "down") (.error "no sample")
        "Free" none).1 = { summary := some [], error := some "down" }
    ∧ (get_market_insights (fun _ _ => .error "down") (.error "no sample")
        "Free" none "market_size").1 =
      { by_state := some [], by_segment := some [], error := some "down" } :=
  ⟨(gateway_double_failure_structured (fun _ _ => .error "down")
      (fun _ _ => .error "down") (fun _ _ => .error "down") "Free" none
      "market_size").1 "down" "down" "no sample" rfl rfl,
   (gateway_double_failure_structured (fun _ _ => .error "down")
      (fun _ _ => .error "down") (fun _ _ => .error "down") "Free" none
      "market_size").2.1 "down" "down" "no sample" rfl rfl,
   (gateway_double_failure_structured (fun _ _ => .error "down")
      (fun _ _ => .error "down") (fun _ _ => .error "down") "Free" none
      "market_size").2.2 "down" "no sample" rfl⟩

end DataAccess

namespace OpportunityMap

/-- C8: when no record of the set carries an opportunity-score field (the
column is absent), the score is fabricated for every record as
`round(growth_rate * market_size / 1000, 1)`; when the record set already
carries the field, every existing value is left unchanged. -/
theorem opportunity_score_derivation (records : List DataAccess.MapRec) :
    ((∀ r ∈ records, r.opportunity_score = none) →
      add_opportunity_score records = records.map fun r =>
        { r with
          opportunity_score := some (pandasRound1 (r.growth_rate * r.market_size / 1000)) })
    ∧ ((∃ r ∈ records, r.opportunity_score.isSome) →
      add_opportunity_score records = records) := by
  constructor
  · intro h
    have hany : records.any (fun r => r.opportunity_score.isSome) = false := by
      simp only [List.any_eq_false]
      intro r hr
      simp [h r hr]
    rw [add_opportunity_score, hany]
    simp
  · intro h
    have hany : records.any (fun r => r.opportunity_score.isSome) = true := by
      simp only [List.any_eq_true]
      obtain ⟨r, hr, hs⟩ := h
      exact ⟨r, hr, hs⟩
    rw [add_opportunity_score, hany]
    simp

/-- Concrete instance of C8: a singleton record set lacking the field gets
`round(10 * 1000 / 1000, 1) = 10.0`; one already carrying the field is
unchanged. -/
theorem opportunity_score_derivation_witness :
    add_opportunity_score [DataAccess.sampleNY] =
      [DataAccess.sampleNY].map (fun r =>
        { r with
          opportunity_score := some (pandasRound1 (r.growth_rate * r.market_size / 1000)) })
    ∧ add_opportunity_score
        [{ DataAccess.sampleNY with opportunity_score := some 7 }] =
      [{ DataAccess.sampleNY with opportunity_score := some 7 }] :=
  ⟨(opportunity_score_derivation [DataAccess.sampleNY]).1
     (by intro r hr; simp at hr; simp [hr, DataAccess.sampleNY]),
   (opportunity_score_derivation
      [{ DataAccess.sampleNY with opportunity_score := some 7 }]).2
     ⟨{ DataAccess.sampleNY with opportunity_score := some 7 }, by simp, rfl⟩⟩

end OpportunityMap
